import Mathlib

/-!
Verification of the behavioral specification of the gosec G701 (SQL-injection
taint) and G118 (context-cancellation / goroutine-leak) detectors against the
repository.  The repository ships only the detectors' behavioral oracle
(fixture programs paired with expected finding counts in
`testutils/g701_samples.go` and `testutils/g118_samples.go`); the analysis
engine itself is absent, so the engine is modelled here from the specification
and validated against the oracle's finding counts.
-/

namespace GosecSpec

mutual

/-- Modelled from the spec: the per-function value representation consumed by
the Value/Taint Model (spec 3, 4.1).  The analyzer code is missing from the
repository; constructors mirror the rows of the propagation table in 4.1:
literals/constants, source calls (request/query/form accessors), binary
combines (concatenation, formatting), type conversions, interface boxing,
pointer dereference, standard-library string transformations applied to an
argument, control-flow merges (phi), slice/array construction and indexing,
map construction and lookup, struct allocation with field initializers, and
struct field loads. -/
inductive Expr where
  | lit (s : String)
  | source
  | binop (a b : Expr)
  | convert (e : Expr)
  | box (e : Expr)
  | deref (e : Expr)
  | libTransform (fn : String) (e : Expr)
  | phi (a b : Expr)
  | sliceLit (es : ExprList)
  | index (e : Expr)
  | mapLit (vals : ExprList)
  | mapLookup (m : Expr)
  | alloc (fs : FieldInits)
  | fieldLoad (base : Expr) (f : String)

/-- A list of expressions (elements of a slice/array or map-value literal). -/
inductive ExprList where
  | nil
  | cons (e : Expr) (rest : ExprList)

/-- Field initializers of a struct allocation: (field-name, stored value). -/
inductive FieldInits where
  | nil
  | cons (f : String) (e : Expr) (rest : FieldInits)

end

mutual

/-- Modelled from the spec: the taint flag of a value (spec 4.1, table of
propagation rules).  Sources are tainted; literals never; binary combines,
conversions, boxing, dereference and phi propagate; standard-library string
transformations are not a recognized safe boundary, so they propagate taint
(spec 7: only recognized safe boundaries clear taint; oracle tests 13, 30,
45 pin this); slices use the whole-container approximation; map construction
and lookup do NOT propagate (exact limitation); an allocation's own pointer
value is untainted (field taint lives in the FieldTaintMap, spec 3); a field
load is tainted only when its base is directly the allocation site whose
field was stored tainted — one level of nesting only. -/
def taint : Expr → Bool
  | .lit _ => false
  | .source => true
  | .binop a b => taint a || taint b
  | .convert e => taint e
  | .box e => taint e
  | .deref e => taint e
  | .libTransform _ e => taint e
  | .phi a b => taint a || taint b
  | .sliceLit es => anyTaint es
  | .index e => taint e
  | .mapLit _ => false
  | .mapLookup _ => false
  | .alloc _ => false
  | .fieldLoad base f => fieldTaintOf base f

/-- Modelled from the spec: FieldTaintMap lookup (spec 3, 4.1) — resolves a
field load only when the base is itself the allocation; a base that is the
result of another field load (a two-level chain) is not resolved. -/
def fieldTaintOf : Expr → String → Bool
  | .alloc fs, f => fieldInitTaint fs f
  | _, _ => false

/-- Taint of the value stored in a named field of an allocation site. -/
def fieldInitTaint : FieldInits → String → Bool
  | .nil, _ => false
  | .cons g e rest, f => if g == f then taint e else fieldInitTaint rest f

/-- Whole-container approximation: a container is tainted if any element is. -/
def anyTaint : ExprList → Bool
  | .nil => false
  | .cons e rest => taint e || anyTaint rest
end

example : taint Expr.source = true := rfl
example : taint (Expr.binop (Expr.lit "SELECT ") Expr.source) = true := rfl
example : taint (Expr.mapLookup (Expr.mapLit (ExprList.cons Expr.source ExprList.nil))) = false := rfl
example : taint (Expr.fieldLoad (Expr.alloc (FieldInits.cons "SQL" Expr.source FieldInits.nil)) "SQL") = true := by decide

mutual

/-- Modelled from the spec: the per-function control/def-use statements the
two G118 passes and the injection detector traverse (spec 2, 4.4-4.6).  The
analyzer code is missing from the repository.  Constructors: a sink call on a
data-handle with its argument list (first argument = query text, 4.3); a
cancelable-scope creation site carrying its cancellation-handle binding
(`none` = blank/discarded target, 4.5); a direct copy of a handle into
another variable, covering assignment into a function/interface-typed
variable (4.5 discharge aliases); a guaranteed-on-exit deferred invocation of
a named callee; returning a named handle to the caller; origination of a
brand-new top-level context (Background/TODO); a recognized blocking
operation (timed sleep/wait, network call, file I/O, stream read, or a
deferred blocking operation, 4.6); an unconditional break/return reachable
independent of any cancellation signal (4.6 Bounded evidence); a select/wait
construct with a flag telling whether one case observes the enclosing
context's cancellation signal and exits, plus the union of its case bodies;
a counter-bounded loop; an unbounded loop; a channel-range loop; and a
goroutine spawn with its body. -/
inductive GoStmt where
  | sinkCall (args : List Expr)
  | scopeCreate (handle : Option String)
  | aliasCopy (dst src : String)
  | deferInvoke (fn : String)
  | returnVar (v : String)
  | newTopCtx
  | blockingOp
  | breakNonCancel
  | selectStmt (hasDoneExit : Bool) (cases : StmtList)
  | boundedLoop (bound : Nat) (body : StmtList)
  | infiniteLoop (body : StmtList)
  | rangeChanLoop (body : StmtList)
  | goBlock (body : StmtList)

/-- A sequence of statements forming a block/body. -/
inductive StmtList where
  | nil
  | cons (s : GoStmt) (rest : StmtList)

end

/-- Conversion from a Lean list literal to a statement block. -/
def toStmtList : List GoStmt → StmtList
  | [] => StmtList.nil
  | s :: ss => StmtList.cons s (toStmtList ss)

/-- A block holding `k` copies of one statement. -/
def stmtReplicate : Nat → GoStmt → StmtList
  | 0, _ => StmtList.nil
  | k + 1, s => StmtList.cons s (stmtReplicate k s)

/-- Modelled from the spec: a function's representation as consumed by the
analysis (spec 2, 6): its statement body plus whether a context value is
reachable in the function — available as a parameter or as a captured free
variable (spec 4.5, goroutine escape check). -/
structure GoFunc where
  ctxReachable : Bool
  body : StmtList

mutual

/-- Modelled from the spec: the SQL-Injection Detector (spec 4.4).  Emits one
Injection finding per distinct sink call site whose query-text (first)
argument is tainted; a loop's body is visited once per lexical site, so the
count is independent of iteration bounds, and trailing bind arguments are
ignored (spec 4.3).  Goroutine bodies are analyzed as ordinary nested scopes
for taint purposes (spec 9, design notes). -/
def injStmt : GoStmt → Nat
  | .sinkCall args =>
    match args with
    | [] => 0
    | q :: _ => if taint q then 1 else 0
  | .selectStmt _ cs => injList cs
  | .boundedLoop _ b => injList b
  | .infiniteLoop b => injList b
  | .rangeChanLoop b => injList b
  | .goBlock b => injList b
  | _ => 0

/-- Injection findings of a statement block. -/
def injList : StmtList → Nat
  | .nil => 0
  | .cons s rest => injStmt s + injList rest

end

/-- Injection findings of a whole function (G701 pass). -/
def injectionFindings (b : StmtList) : Nat := injList b

mutual

/-- All cancelable-scope creation sites of a function, in order, each with
its handle binding; collected across loops, selects and goroutine bodies
(spec 4.5: creation transitions the scope to Pending). -/
def scopeSitesStmt : GoStmt → List (Option String)
  | .scopeCreate h => [h]
  | .selectStmt _ cs => scopeSitesList cs
  | .boundedLoop _ b => scopeSitesList b
  | .infiniteLoop b => scopeSitesList b
  | .rangeChanLoop b => scopeSitesList b
  | .goBlock b => scopeSitesList b
  | _ => []

/-- Scope creation sites of a block. -/
def scopeSitesList : StmtList → List (Option String)
  | .nil => []
  | .cons s rest => scopeSitesStmt s ++ scopeSitesList rest

end

mutual

/-- All direct-copy alias edges (dst, src) of a function (spec 4.5: a simple
alias is obtained by direct copy/store into another variable or by
assignment into a function/interface-typed variable). -/
def copyEdgesStmt : GoStmt → List (String × String)
  | .aliasCopy dst src => [(dst, src)]
  | .selectStmt _ cs => copyEdgesList cs
  | .boundedLoop _ b => copyEdgesList b
  | .infiniteLoop b => copyEdgesList b
  | .rangeChanLoop b => copyEdgesList b
  | .goBlock b => copyEdgesList b
  | _ => []

/-- Alias edges of a block. -/
def copyEdgesList : StmtList → List (String × String)
  | .nil => []
  | .cons s rest => copyEdgesStmt s ++ copyEdgesList rest

end

mutual

/-- All targets of guaranteed-on-exit deferred invocations in a function
(spec 4.5: passing the handle or a simple alias of it to such an invocation
discharges the scope; lexical presence in the same or an enclosing block is
sufficient evidence, independent of per-iteration runtime semantics). -/
def deferTargetsStmt : GoStmt → List String
  | .deferInvoke fn => [fn]
  | .selectStmt _ cs => deferTargetsList cs
  | .boundedLoop _ b => deferTargetsList b
  | .infiniteLoop b => deferTargetsList b
  | .rangeChanLoop b => deferTargetsList b
  | .goBlock b => deferTargetsList b
  | _ => []

/-- Deferred-invocation targets of a block. -/
def deferTargetsList : StmtList → List String
  | .nil => []
  | .cons s rest => deferTargetsStmt s ++ deferTargetsList rest

end

/-- One expansion step of the simple-alias closure: add the copy sources of
every variable already in the set. -/
def aliasStep (edges : List (String × String)) (s : List String) : List String :=
  s ++ (edges.filter (fun e => s.contains e.1)).map (fun e => e.2)

/-- Fuel-bounded simple-alias closure over direct-copy edges. -/
def aliasClosure (edges : List (String × String)) : Nat → List String → List String
  | 0, s => s
  | fuel + 1, s => aliasClosure edges fuel (aliasStep edges s)

/-- Whether callee variable `fn` is the handle `v` or a simple alias of it,
following direct-copy chains (spec 4.5). -/
def resolvesTo (edges : List (String × String)) (fn v : String) : Bool :=
  (aliasClosure edges (edges.length + 1) [fn]).contains v

/-- Modelled from the spec: the discharge decision of the Cancelable-Scope
Tracker for one creation site (spec 4.5).  A blank-bound handle is never
discharged; a named handle is Discharged exactly when some deferred
invocation's callee resolves to it through simple-alias chains; otherwise
the scope escapes (discarded, stored-but-never-invoked, or returned) and is
reported exactly once as UncontrolledCancel. -/
def scopeFinding (edges : List (String × String)) (defers : List String) :
    Option String → Nat
  | none => 1
  | some v => if defers.any (fun fn => resolvesTo edges fn v) then 0 else 1

/-- UncontrolledCancel findings from cancelable-scope creation sites of a
function body, one per undischarged creation site (spec 4.5). -/
def cancelScopeFindings (b : StmtList) : Nat :=
  (scopeSitesList b).foldr
    (fun h acc => scopeFinding (copyEdgesList b) (deferTargetsList b) h + acc) 0

mutual

/-- Count of brand-new top-level context originations inside a goroutine
body; goroutines nested inside this goroutine are NOT traversed (spec 4.5:
limitation, preserved). -/
def newCtxStmt : GoStmt → Nat
  | .newTopCtx => 1
  | .selectStmt _ cs => newCtxList cs
  | .boundedLoop _ b => newCtxList b
  | .infiniteLoop b => newCtxList b
  | .rangeChanLoop b => newCtxList b
  | .goBlock _ => 0
  | _ => 0

/-- Top-level-context originations of a goroutine body block. -/
def newCtxList : StmtList → Nat
  | .nil => 0
  | .cons s rest => newCtxStmt s + newCtxList rest

end

mutual

/-- Sum, over the top-level goroutine bodies of a function, of their
brand-new top-level context originations (spec 4.5: each such origination
inside a goroutine is an Escaped pattern). -/
def topGoStmt : GoStmt → Nat
  | .goBlock b => newCtxList b
  | .selectStmt _ cs => topGoList cs
  | .boundedLoop _ b => topGoList b
  | .infiniteLoop b => topGoList b
  | .rangeChanLoop b => topGoList b
  | _ => 0

/-- Goroutine-origination findings of a block. -/
def topGoList : StmtList → Nat
  | .nil => 0
  | .cons s rest => topGoStmt s + topGoList rest

end

/-- Modelled from the spec: the goroutine context-escape check (spec 4.5).
Only when a context value is reachable in the enclosing function (parameter
or captured free variable) is each top-level goroutine body scanned, one
UncontrolledCancel finding per brand-new top-level context origination; a
function where no context is reachable yields none. -/
def goroutineCtxFindings (f : GoFunc) : Nat :=
  if f.ctxReachable then topGoList f.body else 0

mutual

/-- Whether a statement contains a recognized blocking operation (spec 4.6:
timed sleep/wait, network call, file I/O, generic stream read, nested
goroutine spawn, or a deferred blocking operation scheduled inside the
loop); a goroutine spawn is itself blocking. -/
def hasBlockingStmt : GoStmt → Bool
  | .blockingOp => true
  | .goBlock _ => true
  | .selectStmt _ cs => hasBlockingList cs
  | .boundedLoop _ b => hasBlockingList b
  | .infiniteLoop b => hasBlockingList b
  | .rangeChanLoop b => hasBlockingList b
  | _ => false

/-- Whether a block contains a recognized blocking operation. -/
def hasBlockingList : StmtList → Bool
  | .nil => false
  | .cons s rest => hasBlockingStmt s || hasBlockingList rest

end

mutual

/-- Whether a statement holds a branch/wait construct that observes the
enclosing context's cancellation signal and exits the loop on it
(spec 4.6: the Guarded check). -/
def hasDoneGuardStmt : GoStmt → Bool
  | .selectStmt hasDoneExit cs => hasDoneExit || hasDoneGuardList cs
  | .boundedLoop _ b => hasDoneGuardList b
  | .infiniteLoop b => hasDoneGuardList b
  | .rangeChanLoop b => hasDoneGuardList b
  | _ => false

/-- Whether a block holds a cancellation guard. -/
def hasDoneGuardList : StmtList → Bool
  | .nil => false
  | .cons s rest => hasDoneGuardStmt s || hasDoneGuardList rest

end

mutual

/-- Whether a statement provides an unconditional break/return reachable
independent of any cancellation signal (spec 4.6: Bounded evidence).  Exits
inside nested loops leave only the inner loop, and goroutine bodies cannot
exit the enclosing loop, so neither is traversed. -/
def hasNonCancelExitStmt : GoStmt → Bool
  | .breakNonCancel => true
  | .selectStmt _ cs => hasNonCancelExitList cs
  | _ => false

/-- Whether a block provides a non-cancellation exit. -/
def hasNonCancelExitList : StmtList → Bool
  | .nil => false
  | .cons s rest => hasNonCancelExitStmt s || hasNonCancelExitList rest

end

mutual

/-- Whether a statement contains no loop construct at all. -/
def loopFreeStmt : GoStmt → Bool
  | .boundedLoop _ _ => false
  | .infiniteLoop _ => false
  | .rangeChanLoop _ => false
  | .selectStmt _ cs => loopFreeList cs
  | .goBlock b => loopFreeList b
  | _ => true

/-- Whether a block contains no loop construct. -/
def loopFreeList : StmtList → Bool
  | .nil => true
  | .cons s rest => loopFreeStmt s && loopFreeList rest

end

/-- Modelled from the spec: the per-back-edge classification of one unbounded
loop (spec 4.6).  Bounded when the body holds a non-cancellation exit (the
counter-header case is the `boundedLoop` constructor); otherwise Guarded (no
finding) when the body observes the context's cancellation signal; otherwise
one UnguardedLoop finding exactly when the body holds a recognized blocking
operation. -/
def loopVerdict (body : StmtList) : Nat :=
  if hasNonCancelExitList body then 0
  else if hasDoneGuardList body then 0
  else if hasBlockingList body then 1 else 0

mutual

/-- Modelled from the spec: the Unbounded-Loop Guard Classifier (spec 4.6).
One finding at most per loop construct (never per iteration); counter-header
loops and channel-range loops are never classified as blocking (explicit
limitation); nested constructs are classified independently. -/
def unguardedStmt : GoStmt → Nat
  | .selectStmt _ cs => unguardedList cs
  | .boundedLoop _ b => unguardedList b
  | .infiniteLoop b => loopVerdict b + unguardedList b
  | .rangeChanLoop b => unguardedList b
  | .goBlock b => unguardedList b
  | _ => 0

/-- UnguardedLoop findings of a block. -/
def unguardedList : StmtList → Nat
  | .nil => 0
  | .cons s rest => unguardedStmt s + unguardedList rest

end

/-- UnguardedLoop findings of a whole function body. -/
def unguardedLoopFindings (b : StmtList) : Nat := unguardedList b

/-- All G118 findings of a function: UncontrolledCancel findings from the
Cancelable-Scope Tracker and the goroutine context-escape check, plus
UnguardedLoop findings from the loop classifier (spec 4.5, 4.6). -/
def g118Findings (f : GoFunc) : Nat :=
  cancelScopeFindings f.body + goroutineCtxFindings f + unguardedLoopFindings f.body

/-- All G701 findings of a function: Injection findings (spec 4.4). -/
def g701Findings (f : GoFunc) : Nat := injectionFindings f.body

/-!
Validation of the model against the repository's behavioral oracle: each
fixture of `testutils/g118_samples.go` and `testutils/g701_samples.go`
(`SampleCodeG701` continuing in the unnamed source part) is encoded and its
expected finding count reproduced.
-/

/-- Oracle g118: goroutine originates Background and discards the timeout
handle while a request context exists (expected 2). -/
theorem oracle_g118_go_background : g118Findings
    ⟨true, toStmtList [GoStmt.goBlock (toStmtList
      [GoStmt.newTopCtx, GoStmt.scopeCreate none])]⟩ = 2 := by decide

/-- Oracle g118: WithTimeout handle bound to blank (expected 1). -/
theorem oracle_g118_blank_handle : g118Findings
    ⟨true, toStmtList [GoStmt.scopeCreate none]⟩ = 1 := by decide

/-- Oracle g118: infinite loop with blocking sleep, no guard (expected 1). -/
theorem oracle_g118_sleep_loop : g118Findings
    ⟨true, toStmtList [GoStmt.infiniteLoop (toStmtList [GoStmt.blockingOp])]⟩ = 1 := by
  decide

/-- Oracle g118: infinite loop over a select without a Done case whose case
bodies hold blocking sleeps (expected 1). -/
theorem oracle_g118_complex_infinite : g118Findings
    ⟨true, toStmtList [GoStmt.infiniteLoop (toStmtList
      [GoStmt.selectStmt false (toStmtList [GoStmt.blockingOp, GoStmt.blockingOp])])]⟩
    = 1 := by decide

/-- Oracle g118: goroutine propagates the request context and its loop has a
Done guard (expected 0). -/
theorem oracle_g118_guarded_goroutine : g118Findings
    ⟨true, toStmtList [GoStmt.goBlock (toStmtList
      [GoStmt.infiniteLoop (toStmtList [GoStmt.selectStmt true StmtList.nil])])]⟩
    = 0 := by decide

/-- Oracle g118: `defer cancel()` right after creation (expected 0). -/
theorem oracle_g118_defer_cancel : g118Findings
    ⟨true, toStmtList [GoStmt.scopeCreate (some "cancel"),
      GoStmt.deferInvoke "cancel"]⟩ = 0 := by decide

/-- Oracle g118: cancel copied to another variable then deferred
(expected 0). -/
theorem oracle_g118_forwarded : g118Findings
    ⟨true, toStmtList [GoStmt.scopeCreate (some "cancel"),
      GoStmt.aliasCopy "cancelCopy" "cancel",
      GoStmt.deferInvoke "cancelCopy"]⟩ = 0 := by decide

/-- Oracle g118: loop with explicit Done guard (expected 0). -/
theorem oracle_g118_guarded_loop : g118Findings
    ⟨true, toStmtList [GoStmt.infiniteLoop (toStmtList
      [GoStmt.selectStmt true StmtList.nil])]⟩ = 0 := by decide

/-- Oracle g118: counter-bounded loop with a blocking call (expected 0). -/
theorem oracle_g118_bounded : g118Findings
    ⟨true, toStmtList [GoStmt.boundedLoop 3 (toStmtList [GoStmt.blockingOp])]⟩
    = 0 := by decide

/-- Oracle g118: loop with an explicit non-context exit path (expected 0). -/
theorem oracle_g118_break_exit : g118Findings
    ⟨true, toStmtList [GoStmt.infiniteLoop (toStmtList
      [GoStmt.breakNonCancel, GoStmt.blockingOp])]⟩ = 0 := by decide

/-- Oracle g118: goroutine originates context.TODO while the request context
exists (expected 1). -/
theorem oracle_g118_todo_goroutine : g118Findings
    ⟨true, toStmtList [GoStmt.goBlock (toStmtList [GoStmt.newTopCtx])]⟩ = 1 := by
  decide

/-- Oracle g118: origination inside a nested goroutine is not traversed
(expected 0). -/
theorem oracle_g118_nested_goroutine : g118Findings
    ⟨true, toStmtList [GoStmt.goBlock (toStmtList
      [GoStmt.goBlock (toStmtList [GoStmt.newTopCtx])])]⟩ = 0 := by decide

/-- Oracle g118: channel-range loop not classified as blocking
(expected 0). -/
theorem oracle_g118_chan_range : g118Findings
    ⟨true, toStmtList [GoStmt.rangeChanLoop StmtList.nil]⟩ = 0 := by decide

/-- Oracle g118: bare repeated select without a Done case (expected 0). -/
theorem oracle_g118_bare_select : g118Findings
    ⟨true, toStmtList [GoStmt.infiniteLoop (toStmtList
      [GoStmt.selectStmt false StmtList.nil])]⟩ = 0 := by decide

/-- Oracle g118: two creations, only the first deferred (expected 1). -/
theorem oracle_g118_multi_context : g118Findings
    ⟨true, toStmtList [GoStmt.scopeCreate (some "cancel1"),
      GoStmt.deferInvoke "cancel1", GoStmt.scopeCreate none]⟩ = 1 := by decide

/-- Oracle g118: cancellation handle returned to the caller (expected 1). -/
theorem oracle_g118_returned : g118Findings
    ⟨true, toStmtList [GoStmt.scopeCreate (some "cancel"),
      GoStmt.returnVar "cancel"]⟩ = 1 := by decide

/-- Oracle g118: goroutine originates Background but no context value is
reachable in the function (expected 0). -/
theorem oracle_g118_no_ctx_reachable : g118Findings
    ⟨false, toStmtList [GoStmt.goBlock (toStmtList [GoStmt.newTopCtx])]⟩ = 0 := by
  decide

/-- Oracle g118: polling loop with network call and sleep (expected 1). -/
theorem oracle_g118_poll_api : g118Findings
    ⟨true, toStmtList [GoStmt.infiniteLoop (toStmtList
      [GoStmt.blockingOp, GoStmt.blockingOp])]⟩ = 1 := by decide

/-- Oracle g118: blocking poll inside a select with a Done case
(expected 0). -/
theorem oracle_g118_safe_poller : g118Findings
    ⟨true, toStmtList [GoStmt.deferInvoke "tickerStop",
      GoStmt.infiniteLoop (toStmtList
        [GoStmt.selectStmt true (toStmtList [GoStmt.blockingOp])])]⟩ = 0 := by
  decide

/-- Oracle g118: goroutine originates TODO but defers its own cancel
(expected 1). -/
theorem oracle_g118_todo_with_defer : g118Findings
    ⟨true, toStmtList [GoStmt.goBlock (toStmtList
      [GoStmt.newTopCtx, GoStmt.scopeCreate (some "cancel"),
       GoStmt.deferInvoke "cancel"])]⟩ = 1 := by decide

/-- Oracle g118: WithTimeout in a 10-iteration loop, no cancel — reported
once per location (expected 1). -/
theorem oracle_g118_leaky_loop : g118Findings
    ⟨true, toStmtList [GoStmt.boundedLoop 10 (toStmtList
      [GoStmt.scopeCreate none])]⟩ = 1 := by decide

/-- Oracle g118: WithTimeout in a loop with `defer cancel()` (expected 0). -/
theorem oracle_g118_proper_loop : g118Findings
    ⟨true, toStmtList [GoStmt.boundedLoop 10 (toStmtList
      [GoStmt.scopeCreate (some "cancel"), GoStmt.deferInvoke "cancel"])]⟩
    = 0 := by decide

/-- Oracle g118: handle stored in a variable but never invoked
(expected 1). -/
theorem oracle_g118_store_cancel : g118Findings
    ⟨true, toStmtList [GoStmt.scopeCreate (some "cancel")]⟩ = 1 := by decide

/-- Oracle g118: handle assigned to a function-typed variable and deferred
through it (expected 0). -/
theorem oracle_g118_interface_cancel : g118Findings
    ⟨true, toStmtList [GoStmt.scopeCreate (some "cancel"),
      GoStmt.aliasCopy "fn" "cancel", GoStmt.deferInvoke "fn"]⟩ = 0 := by decide

/-- Oracle g118: loop spawning goroutines each iteration (expected 1). -/
theorem oracle_g118_spawn_workers : g118Findings
    ⟨true, toStmtList [GoStmt.infiniteLoop (toStmtList
      [GoStmt.goBlock (toStmtList [GoStmt.blockingOp]), GoStmt.blockingOp])]⟩
    = 1 := by decide

/-- Oracle g118: bounded fetch loop with error return (expected 0). -/
theorem oracle_g118_fetch_with_break : g118Findings
    ⟨true, toStmtList [GoStmt.boundedLoop 5 (toStmtList
      [GoStmt.blockingOp, GoStmt.breakNonCancel])]⟩ = 0 := by decide

/-- Oracle g701: concatenated query from a request accessor (expected 1). -/
theorem oracle_g701_concat : g701Findings
    ⟨true, toStmtList [GoStmt.sinkCall
      [Expr.binop (Expr.binop (Expr.lit "SELECT * FROM users WHERE name = '")
        Expr.source) (Expr.lit "'")]]⟩ = 1 := by decide

/-- Oracle g701: constant query, no user input (expected 0). -/
theorem oracle_g701_constant : g701Findings
    ⟨true, toStmtList [GoStmt.sinkCall [Expr.lit "SELECT * FROM users"]]⟩
    = 0 := by decide

/-- Oracle g701: prepared statement — fixed query text plus a tainted bind
argument (expected 0). -/
theorem oracle_g701_prepared : g701Findings
    ⟨true, toStmtList [GoStmt.sinkCall
      [Expr.lit "SELECT * FROM users WHERE name = ?", Expr.source]]⟩ = 0 := by
  decide

/-- Oracle g701: struct literal with a tainted field, loaded at the sink
(expected 1). -/
theorem oracle_g701_field : g701Findings
    ⟨true, toStmtList [GoStmt.sinkCall
      [Expr.fieldLoad (Expr.alloc (FieldInits.cons "SQL" Expr.source
        FieldInits.nil)) "SQL"]]⟩ = 1 := by decide

/-- Oracle g701: two-level field chain through an intermediate allocation —
documented limitation (expected 0). -/
theorem oracle_g701_nested_field : g701Findings
    ⟨true, toStmtList [GoStmt.sinkCall
      [Expr.fieldLoad (Expr.fieldLoad (Expr.alloc (FieldInits.cons "Query"
        (Expr.alloc (FieldInits.cons "SQL" Expr.source FieldInits.nil))
        FieldInits.nil)) "Query") "SQL"]]⟩ = 0 := by decide

/-- Oracle g701: sink inside a 10-iteration loop with a phi-merged tainted
argument (expected 1, not 10). -/
theorem oracle_g701_loop_phi : g701Findings
    ⟨true, toStmtList [GoStmt.boundedLoop 10 (toStmtList [GoStmt.sinkCall
      [Expr.binop (Expr.lit "SELECT * FROM data WHERE value = '")
        (Expr.phi Expr.source (Expr.lit ""))]])]⟩ = 1 := by decide

/-- Oracle g701: indexing a slice holding tainted elements (expected 1). -/
theorem oracle_g701_slice_index : g701Findings
    ⟨true, toStmtList [GoStmt.sinkCall
      [Expr.binop (Expr.lit "SELECT * FROM users WHERE id = ")
        (Expr.index (Expr.sliceLit (ExprList.cons Expr.source
          (ExprList.cons Expr.source ExprList.nil))))]]⟩ = 1 := by decide

/-- Oracle g701: lookup from a map constructed with a tainted value —
documented limitation (expected 0). -/
theorem oracle_g701_map_lookup : g701Findings
    ⟨true, toStmtList [GoStmt.sinkCall
      [Expr.binop (Expr.lit "SELECT * FROM users WHERE id = '")
        (Expr.mapLookup (Expr.mapLit (ExprList.cons Expr.source
          (ExprList.cons (Expr.lit "admin_value") ExprList.nil))))]]⟩ = 0 := by
  decide

/-- Oracle g701: chained standard-library transformations of tainted input
(expected 1). -/
theorem oracle_g701_transform_chain : g701Findings
    ⟨true, toStmtList [GoStmt.sinkCall
      [Expr.binop (Expr.lit "SELECT * FROM data WHERE value = '")
        (Expr.libTransform "strings.ToUpper" (Expr.libTransform
          "strings.ToLower" (Expr.libTransform "strings.TrimSpace"
            Expr.source)))]]⟩ = 1 := by decide

mutual

/-- A statement with no loop construct contributes no UnguardedLoop
finding. -/
theorem loopFree_unguarded_stmt :
    ∀ s : GoStmt, loopFreeStmt s = true → unguardedStmt s = 0
  | GoStmt.sinkCall _, _ => rfl
  | GoStmt.scopeCreate _, _ => rfl
  | GoStmt.aliasCopy _ _, _ => rfl
  | GoStmt.deferInvoke _, _ => rfl
  | GoStmt.returnVar _, _ => rfl
  | GoStmt.newTopCtx, _ => rfl
  | GoStmt.blockingOp, _ => rfl
  | GoStmt.breakNonCancel, _ => rfl
  | GoStmt.selectStmt _ cs, h => by
      simp only [loopFreeStmt] at h
      simp [unguardedStmt, loopFree_unguarded_list cs h]
  | GoStmt.boundedLoop _ _, h => by simp [loopFreeStmt] at h
  | GoStmt.infiniteLoop _, h => by simp [loopFreeStmt] at h
  | GoStmt.rangeChanLoop _, h => by simp [loopFreeStmt] at h
  | GoStmt.goBlock b, h => by
      simp only [loopFreeStmt] at h
      simp [unguardedStmt, loopFree_unguarded_list b h]

/-- A block with no loop construct contributes no UnguardedLoop finding. -/
theorem loopFree_unguarded_list :
    ∀ ss : StmtList, loopFreeList ss = true → unguardedList ss = 0
  | StmtList.nil, _ => rfl
  | StmtList.cons s rest, h => by
      simp only [loopFreeList, Bool.and_eq_true] at h
      simp [unguardedList, loopFree_unguarded_stmt s h.1,
        loopFree_unguarded_list rest h.2]

end

/-- Claim C1: findings are deduplicated by location — a sink call site with a
tainted query-text argument sitting inside an N-iteration loop yields exactly
1 Injection finding (not N), and a cancelable-scope creation site inside a
loop body whose handle is never discharged yields exactly 1
UncontrolledCancel finding, regardless of the iteration count. -/
theorem dedup_by_location (n m : Nat) (q : Expr) (rest : List Expr)
    (hq : taint q = true) (hv : Option String) :
    injectionFindings (toStmtList [GoStmt.boundedLoop n
      (toStmtList [GoStmt.sinkCall (q :: rest)])]) = 1 ∧
    cancelScopeFindings (toStmtList [GoStmt.boundedLoop m
      (toStmtList [GoStmt.scopeCreate hv])]) = 1 := by
  constructor
  · simp [injectionFindings, injList, injStmt, toStmtList, hq]
  · cases hv <;>
      simp [cancelScopeFindings, scopeSitesList, scopeSitesStmt, copyEdgesList,
        copyEdgesStmt, deferTargetsList, deferTargetsStmt, toStmtList,
        scopeFinding]

/-- Application of C1 at a concrete loop bound and tainted source argument. -/
theorem dedup_by_location_applied :
    taint Expr.source = true ∧
    (injectionFindings (toStmtList [GoStmt.boundedLoop 7
      (toStmtList [GoStmt.sinkCall [Expr.source]])]) = 1 ∧
     cancelScopeFindings (toStmtList [GoStmt.boundedLoop 5
      (toStmtList [GoStmt.scopeCreate none])]) = 1) :=
  ⟨by decide, dedup_by_location 7 5 Expr.source [] (by decide) none⟩

/-- Claim C2: only the first (query-text) argument position of a sink call is
checked for taint — a sink call whose first argument is a literal/constant
query string yields 0 Injection findings whatever the trailing bind
arguments carry. -/
theorem first_arg_position_only (s : String) (rest : List Expr) :
    injectionFindings (toStmtList [GoStmt.sinkCall (Expr.lit s :: rest)]) = 0 := by
  simp [injectionFindings, injList, injStmt, toStmtList, taint]

/-- Claim C3: each escape pattern of a cancelable scope — handle bound to a
blank target, handle stored (possibly copied onward) but never invoked on
any path, or handle returned to the caller — yields exactly one
UncontrolledCancel finding for the creation site. -/
theorem escape_patterns_report_once (v w : String) :
    cancelScopeFindings (toStmtList [GoStmt.scopeCreate none]) = 1 ∧
    cancelScopeFindings (toStmtList [GoStmt.scopeCreate (some v),
      GoStmt.aliasCopy w v]) = 1 ∧
    cancelScopeFindings (toStmtList [GoStmt.scopeCreate (some v),
      GoStmt.returnVar v]) = 1 := by
  refine ⟨?_, ?_, ?_⟩ <;>
    simp [cancelScopeFindings, scopeSitesList, scopeSitesStmt, copyEdgesList,
      copyEdgesStmt, deferTargetsList, deferTargetsStmt, toStmtList,
      scopeFinding]

/-- Claim C4: passing the cancellation handle, or a simple alias of it
obtained by direct copy or by assignment into a function/interface-typed
variable, to a deferred invocation discharges the scope — 0
UncontrolledCancel findings for that creation site. -/
theorem deferred_discharge_no_finding (v w : String) :
    cancelScopeFindings (toStmtList [GoStmt.scopeCreate (some v),
      GoStmt.deferInvoke v]) = 0 ∧
    cancelScopeFindings (toStmtList [GoStmt.scopeCreate (some v),
      GoStmt.aliasCopy w v, GoStmt.deferInvoke w]) = 0 := by
  constructor
  · simp [cancelScopeFindings, scopeSitesList, scopeSitesStmt, copyEdgesList,
      copyEdgesStmt, deferTargetsList, deferTargetsStmt, toStmtList,
      scopeFinding, resolvesTo, aliasClosure, aliasStep, List.contains,
      List.filter, List.map, List.elem]
  · simp only [cancelScopeFindings, scopeSitesList, scopeSitesStmt,
      copyEdgesList, copyEdgesStmt, deferTargetsList, deferTargetsStmt,
      toStmtList, scopeFinding, resolvesTo, aliasClosure, aliasStep,
      List.contains, List.filter, List.map, List.elem, List.any,
      List.length, List.append_nil, List.nil_append]
    simp [List.filter, List.elem]
    split <;> rfl

/-- Claim C5: when a context value is reachable in the enclosing function,
each origination of a brand-new top-level context inside a top-level
goroutine body yields one UncontrolledCancel finding; when no context value
is reachable, none is emitted; and goroutines nested inside other goroutines
are not traversed, so originations inside them yield 0 findings. -/
theorem goroutine_ctx_rule (k : Nat) (b inner : StmtList) :
    goroutineCtxFindings ⟨false, b⟩ = 0 ∧
    goroutineCtxFindings ⟨true, toStmtList [GoStmt.goBlock
      (toStmtList [GoStmt.goBlock inner])]⟩ = 0 ∧
    goroutineCtxFindings ⟨true, toStmtList [GoStmt.goBlock
      (stmtReplicate k GoStmt.newTopCtx)]⟩ = k := by
  refine ⟨?_, ?_, ?_⟩
  · simp [goroutineCtxFindings]
  · simp [goroutineCtxFindings, toStmtList, topGoList, topGoStmt,
      newCtxList, newCtxStmt]
  · simp only [goroutineCtxFindings, toStmtList, topGoList, topGoStmt,
      if_true, Nat.add_zero]
    induction k with
    | zero => rfl
    | succ k ih =>
      simp only [stmtReplicate, newCtxList, newCtxStmt] at ih ⊢
      omega

/-- Claim C6: an unbounded loop whose body contains a recognized blocking
operation is suppressed by a cancellation guard in its body, and yields
exactly one UnguardedLoop finding for the loop construct otherwise. -/
theorem loop_guard_rule (body : StmtList) (hb : hasBlockingList body = true)
    (hx : hasNonCancelExitList body = false) (hl : loopFreeList body = true) :
    unguardedLoopFindings (toStmtList [GoStmt.infiniteLoop body]) =
      (if hasDoneGuardList body then 0 else 1) := by
  cases hg : hasDoneGuardList body <;>
    simp [unguardedLoopFindings, toStmtList, unguardedList, unguardedStmt,
      loopVerdict, hb, hx, hg, loopFree_unguarded_list body hl]

/-- Application of C6 to a loop over a single blocking operation. -/
theorem loop_guard_rule_applied :
    hasBlockingList (toStmtList [GoStmt.blockingOp]) = true ∧
    hasNonCancelExitList (toStmtList [GoStmt.blockingOp]) = false ∧
    loopFreeList (toStmtList [GoStmt.blockingOp]) = true ∧
    unguardedLoopFindings (toStmtList [GoStmt.infiniteLoop
      (toStmtList [GoStmt.blockingOp])]) =
      (if hasDoneGuardList (toStmtList [GoStmt.blockingOp]) then 0 else 1) :=
  ⟨by decide, by decide, by decide,
    loop_guard_rule (toStmtList [GoStmt.blockingOp]) (by decide) (by decide)
      (by decide)⟩

/-- Claim C7: a channel-range loop, and an infinite loop whose body is a
bare repeated select without a cancellation case, are never classified as
blocking — 0 UnguardedLoop findings even though such loops may be
practically unbounded. -/
theorem nonblocking_loop_limitation (body : StmtList)
    (hl : loopFreeList body = true) :
    unguardedLoopFindings (toStmtList [GoStmt.rangeChanLoop body]) = 0 ∧
    unguardedLoopFindings (toStmtList [GoStmt.infiniteLoop (toStmtList
      [GoStmt.selectStmt false StmtList.nil])]) = 0 := by
  constructor
  · simp [unguardedLoopFindings, toStmtList, unguardedList, unguardedStmt,
      loopFree_unguarded_list body hl]
  · decide

/-- Application of C7 to a range loop whose body holds a blocking call. -/
theorem nonblocking_loop_limitation_applied :
    loopFreeList (toStmtList [GoStmt.blockingOp]) = true ∧
    (unguardedLoopFindings (toStmtList [GoStmt.rangeChanLoop
      (toStmtList [GoStmt.blockingOp])]) = 0 ∧
     unguardedLoopFindings (toStmtList [GoStmt.infiniteLoop (toStmtList
      [GoStmt.selectStmt false StmtList.nil])]) = 0) :=
  ⟨by decide,
    nonblocking_loop_limitation (toStmtList [GoStmt.blockingOp]) (by decide)⟩

/-- Claim C8: field-taint tracking resolves exactly one level of nesting —
a sink reading a two-level field chain through an intermediate
heap-allocated struct yields 0 Injection findings even though the inner
field stores a tainted value, while the direct one-level load of that same
inner field is tainted. -/
theorem field_chain_one_level (f g : String) :
    injectionFindings (toStmtList [GoStmt.sinkCall
      [Expr.fieldLoad (Expr.fieldLoad (Expr.alloc (FieldInits.cons f
        (Expr.alloc (FieldInits.cons g Expr.source FieldInits.nil))
        FieldInits.nil)) f) g]]) = 0 ∧
    taint (Expr.fieldLoad (Expr.alloc (FieldInits.cons g Expr.source
      FieldInits.nil)) g) = true := by
  constructor
  · simp [injectionFindings, injList, injStmt, toStmtList, taint, fieldTaintOf]
  · simp [taint, fieldTaintOf, fieldInitTaint]

/-- Claim C9: taint on a map value at construction does not flow to a later
lookup — a sink whose query-text argument derives from the lookup yields 0
Injection findings even when a looked-up slot was assigned a tainted value
at construction. -/
theorem map_lookup_no_propagation (vs : ExprList) (pre : String)
    (_hv : anyTaint vs = true) :
    taint (Expr.mapLookup (Expr.mapLit vs)) = false ∧
    injectionFindings (toStmtList [GoStmt.sinkCall
      [Expr.binop (Expr.lit pre) (Expr.mapLookup (Expr.mapLit vs))]]) = 0 := by
  constructor
  · simp [taint]
  · simp [injectionFindings, injList, injStmt, toStmtList, taint]

/-- Application of C9 to a map constructed with a tainted source value. -/
theorem map_lookup_no_propagation_applied :
    anyTaint (ExprList.cons Expr.source ExprList.nil) = true ∧
    (taint (Expr.mapLookup (Expr.mapLit (ExprList.cons Expr.source
      ExprList.nil))) = false ∧
     injectionFindings (toStmtList [GoStmt.sinkCall
      [Expr.binop (Expr.lit "SELECT * FROM users WHERE id = '")
        (Expr.mapLookup (Expr.mapLit (ExprList.cons Expr.source
          ExprList.nil)))]]) = 0) :=
  ⟨by decide, map_lookup_no_propagation (ExprList.cons Expr.source ExprList.nil)
    "SELECT * FROM users WHERE id = '" (by decide)⟩

/-- One standard-library transformation step as exercised by the oracle:
strings.ToLower / strings.ToUpper / strings.TrimSpace, strconv.Atoi followed
by strconv.Itoa, or a string-to-byte-slice round trip. -/
inductive LibStep where
  | lower
  | upper
  | trimSpace
  | atoiItoa
  | bytesRoundTrip

/-- The expression a transformation step builds from its argument. -/
def applyStep : LibStep → Expr → Expr
  | .lower, e => Expr.libTransform "strings.ToLower" e
  | .upper, e => Expr.libTransform "strings.ToUpper" e
  | .trimSpace, e => Expr.libTransform "strings.TrimSpace" e
  | .atoiItoa, e =>
    Expr.libTransform "strconv.Itoa" (Expr.libTransform "strconv.Atoi" e)
  | .bytesRoundTrip, e => Expr.convert (Expr.convert e)

/-- A chain of standard-library transformations applied to a value. -/
def applyChain : List LibStep → Expr → Expr
  | [], e => e
  | s :: ss, e => applyStep s (applyChain ss e)

/-- Every transformation step preserves the taint flag of its argument. -/
theorem applyStep_taint (s : LibStep) (e : Expr) :
    taint (applyStep s e) = taint e := by
  cases s <;> simp [applyStep, taint]

/-- Claim C10: no sanitizing transformation is recognized — a query-text
argument that derives from tainted input only through standard-library
transformations stays tainted, and a sink consuming it yields exactly one
Injection finding. -/
theorem no_sanitizer_recognized (steps : List LibStep) (e : Expr)
    (he : taint e = true) :
    taint (applyChain steps e) = true ∧
    injectionFindings (toStmtList [GoStmt.sinkCall [applyChain steps e]])
      = 1 := by
  have ht : taint (applyChain steps e) = true := by
    induction steps with
    | nil => simpa [applyChain] using he
    | cons s ss ih => simp [applyChain, applyStep_taint, ih]
  exact ⟨ht, by simp [injectionFindings, injList, injStmt, toStmtList, ht]⟩

/-- Application of C10 to a ToLower, Atoi/Itoa, byte-round-trip chain over a
source value. -/
theorem no_sanitizer_recognized_applied :
    taint Expr.source = true ∧
    (taint (applyChain [LibStep.lower, LibStep.atoiItoa,
      LibStep.bytesRoundTrip] Expr.source) = true ∧
     injectionFindings (toStmtList [GoStmt.sinkCall
      [applyChain [LibStep.lower, LibStep.atoiItoa, LibStep.bytesRoundTrip]
        Expr.source]]) = 1) :=
  ⟨rfl, no_sanitizer_recognized
    [LibStep.lower, LibStep.atoiItoa, LibStep.bytesRoundTrip] Expr.source rfl⟩

end GosecSpec
